import Mathlib

/-!
Shallow embedding of the `de_containers` Canvas-ETL service
(`src/container/app/ingestion.py`, `src/container/app/transformations.py`,
`src/container/app/main.py`).

Modelling conventions:
* The warehouse is a `Database` record of tables, each table a `List` of rows.
* JSON payloads stored in the raw tables' `payload VARCHAR` column are
  modelled as already-parsed records; `PARSE_JSON(payload):field::TYPE`
  becomes a field access (nullable columns/fields are `Option`).
* `CURRENT_TIMESTAMP()` is a logical clock `World.now : Nat` (seconds);
  executing any SQL statement advances the clock by one, since two distinct
  statements never observe the same (nanosecond-resolution) timestamp.
  `DATEADD('hour', -1, t)` is `t - 3600`, `ts::DATE` is `ts / 86400`.
* Each executed SQL statement, and each method-entry `logger.info` line of
  the pipeline/engine step methods, is recorded in a ghost trace
  `World.trace : List Ev`.
* Query failures are modelled by fault injection: `World.failing` lists the
  upsert (MERGE / INSERT-SELECT) statements whose execution raises.  A raised
  Python exception is an `Except.error` carrying the message; the state in
  which it was raised is returned alongside (side effects already committed
  remain, the failed statement itself has no effect).
* Surrogate keys (`student_key`, ...) come from DDL autoincrement columns
  that are not part of this repository; they are modelled as the insertion
  index into the dimension table.
-/

namespace DeContainers

/-- processing_status column of every RAW table. -/
inductive ProcStatus
  | PENDING
  | PROCESSED
  | ERROR
  deriving DecidableEq

/-- A row of a RAW landing-zone table: raw_id, payload, processing_status. -/
structure RawRow (α : Type) where
  raw_id : String
  payload : α
  processing_status : ProcStatus
  deriving DecidableEq

/-- Parsed payload of a RAW_STUDENTS row (ingestion.py lines 76-87). -/
structure StudentPayload where
  student_id : String
  canvas_user_id : Option Int
  first_name : Option String
  last_name : Option String
  email : Option String
  major : Option String
  classification : Option String
  enrollment_status : Option String
  enrollment_date : Option Nat
  expected_graduation : Option Nat
  gpa : Option Rat
  advisor_id : Option String
  deriving DecidableEq

/-- A CURATED.DIM_STUDENTS row. -/
structure DimStudent where
  student_key : Nat
  student_id : String
  canvas_user_id : Option Int
  first_name : Option String
  last_name : Option String
  email : Option String
  major : Option String
  classification : Option String
  enrollment_status : Option String
  enrollment_date : Option Nat
  expected_graduation : Option Nat
  gpa : Option Rat
  advisor_id : Option String
  updated_at : Nat
  is_current : Option Bool
  deriving DecidableEq

/-- Parsed payload of a RAW_COURSES row (ingestion.py lines 140-154). -/
structure CoursePayload where
  course_id : String
  canvas_course_id : Option Int
  course_code : Option String
  course_name : Option String
  department : Option String
  credit_hours : Option Int
  course_level : Option String
  delivery_mode : Option String
  term : Option String
  academic_year : Option String
  instructor_id : Option String
  instructor_name : Option String
  start_date : Option Nat
  end_date : Option Nat
  max_enrollment : Option Int
  deriving DecidableEq

/-- A CURATED.DIM_COURSES row. -/
structure DimCourse where
  course_key : Nat
  course_id : String
  canvas_course_id : Option Int
  course_code : Option String
  course_name : Option String
  department : Option String
  credit_hours : Option Int
  course_level : Option String
  delivery_mode : Option String
  term : Option String
  academic_year : Option String
  instructor_id : Option String
  instructor_name : Option String
  start_date : Option Nat
  end_date : Option Nat
  max_enrollment : Option Int
  updated_at : Nat
  is_current : Option Bool
  deriving DecidableEq

/-- Parsed payload of a RAW_ASSIGNMENTS row (transformations.py lines 83-94). -/
structure AssignmentPayload where
  assignment_id : String
  canvas_assignment_id : Option Int
  course_id : String
  assignment_name : Option String
  assignment_type : Option String
  points_possible : Option Rat
  due_date : Option Nat
  unlock_date : Option Nat
  lock_date : Option Nat
  submission_types : Option String
  is_group_assignment : Option Bool
  weight : Option Rat
  deriving DecidableEq

/-- A CURATED.DIM_ASSIGNMENTS row. -/
structure DimAssignment where
  assignment_key : Nat
  assignment_id : String
  canvas_assignment_id : Option Int
  course_id : String
  assignment_name : Option String
  assignment_type : Option String
  points_possible : Option Rat
  due_date : Option Nat
  unlock_date : Option Nat
  lock_date : Option Nat
  submission_types : Option String
  is_group_assignment : Option Bool
  weight : Option Rat
  updated_at : Nat
  deriving DecidableEq

/-- Parsed payload of a RAW_ENROLLMENTS row (ingestion.py lines 212-222). -/
structure EnrollmentPayload where
  enrollment_id : String
  student_id : String
  course_id : String
  enrollment_state : Option String
  enrollment_type : Option String
  enrolled_at : Option Nat
  completed_at : Option Nat
  final_grade : Option String
  final_score : Option Rat
  deriving DecidableEq

/-- A CURATED.FACT_ENROLLMENTS row. -/
structure FactEnrollment where
  enrollment_id : String
  student_key : Option Nat
  course_key : Option Nat
  student_id : String
  course_id : String
  enrollment_state : Option String
  enrollment_type : Option String
  enrolled_at : Option Nat
  completed_at : Option Nat
  final_grade : Option String
  final_score : Option Rat
  updated_at : Nat
  deriving DecidableEq

/-- Parsed payload of a RAW_SUBMISSIONS row (ingestion.py lines 274-290). -/
structure SubmissionPayload where
  submission_id : String
  student_id : String
  assignment_id : String
  submitted_at : Option Nat
  graded_at : Option Nat
  score : Option Rat
  grade : Option String
  points_possible : Option Rat
  percentage : Option Rat
  submission_type : Option String
  attempt_number : Option Int
  late_flag : Option Bool
  missing_flag : Option Bool
  excused_flag : Option Bool
  grader_id : Option String
  deriving DecidableEq

/-- A CURATED.FACT_SUBMISSIONS row. -/
structure FactSubmission where
  submission_id : String
  student_key : Option Nat
  assignment_key : Option Nat
  student_id : String
  assignment_id : String
  submitted_at : Option Nat
  graded_at : Option Nat
  score : Option Rat
  grade : Option String
  points_possible : Option Rat
  percentage : Option Rat
  submission_type : Option String
  attempt_number : Option Int
  late_flag : Option Bool
  missing_flag : Option Bool
  excused_flag : Option Bool
  grader_id : Option String
  updated_at : Nat
  deriving DecidableEq

/-- Parsed payload of a RAW_ACTIVITY_LOGS row (ingestion.py lines 349-360). -/
structure ActivityPayload where
  activity_id : String
  student_id : String
  course_id : String
  activity_type : Option String
  activity_timestamp : Option Nat
  duration_seconds : Option Int
  page_url : Option String
  device_type : Option String
  browser : Option String
  ip_address : Option String
  deriving DecidableEq

/-- A CURATED.FACT_ACTIVITY_LOGS row. -/
structure FactActivity where
  activity_id : String
  student_key : Option Nat
  course_key : Option Nat
  student_id : String
  course_id : String
  activity_type : Option String
  activity_timestamp : Option Nat
  duration_seconds : Option Int
  page_url : Option String
  device_type : Option String
  browser : Option String
  ip_address : Option String
  deriving DecidableEq

/-- Grade buckets of the OBJECT_CONSTRUCT in aggregate_course_analytics. -/
structure GradeDistribution where
  a : Nat
  b : Nat
  c : Nat
  d : Nat
  f : Nat
  deriving DecidableEq

/-- A CURATED.AGG_STUDENT_COURSE_PERFORMANCE row
(transformations.py lines 155-183). -/
structure AggStudentPerfRow where
  student_id : String
  course_id : String
  term : Option String
  total_assignments : Nat
  completed_assignments : Nat
  avg_score : Option Rat
  total_points_earned : Option Rat
  total_points_possible : Option Rat
  late_submissions : Nat
  missing_submissions : Nat
  total_activity_minutes : Rat
  last_activity_date : Option Nat
  current_grade : Option String
  calculated_at : Nat
  deriving DecidableEq

/-- A CURATED.AGG_COURSE_ANALYTICS row (transformations.py lines 208-244). -/
structure AggCourseAnalyticsRow where
  course_id : String
  term : Option String
  total_enrolled : Nat
  active_students : Nat
  avg_class_score : Option Rat
  median_class_score : Option Rat
  grade_distribution : GradeDistribution
  completion_rate : Option Rat
  avg_engagement_minutes : Option Rat
  at_risk_students : Nat
  calculated_at : Nat
  deriving DecidableEq

/-- The warehouse: every table touched by the service. -/
structure Database where
  raw_students : List (RawRow StudentPayload)
  raw_courses : List (RawRow CoursePayload)
  raw_enrollments : List (RawRow EnrollmentPayload)
  raw_submissions : List (RawRow SubmissionPayload)
  raw_activity_logs : List (RawRow ActivityPayload)
  raw_assignments : List (RawRow AssignmentPayload)
  dim_students : List DimStudent
  dim_courses : List DimCourse
  dim_assignments : List DimAssignment
  fact_enrollments : List FactEnrollment
  fact_submissions : List FactSubmission
  fact_activity_logs : List FactActivity
  agg_student_course_performance : List AggStudentPerfRow
  agg_course_analytics : List AggCourseAnalyticsRow
  deriving DecidableEq

/-- The RAW tables addressed by name in the SQL text. -/
inductive RawTable
  | RAW_STUDENTS
  | RAW_COURSES
  | RAW_ENROLLMENTS
  | RAW_SUBMISSIONS
  | RAW_ACTIVITY_LOGS
  | RAW_ASSIGNMENTS
  deriving DecidableEq

/-- One tag per distinct SQL statement issued by the service
(ghost-trace identifiers for the statements in ingestion.py,
transformations.py). -/
inductive Stmt
  | countPending (t : RawTable)
  | markProcessed (t : RawTable)
  | markErrorIds (t : RawTable)
  | mergeStudents
  | mergeCourses
  | mergeEnrollments
  | mergeSubmissions
  | insertActivityLogs
  | mergeAssignments
  | updateDimStudents
  | updateDimCourses
  | truncateAggStudentPerf
  | insertAggStudentPerf
  | countAggStudentPerf
  | truncateAggCourseAnalytics
  | insertAggCourseAnalytics
  | countAggCourseAnalytics
  | selectRiskStudents
  deriving DecidableEq

/-- One tag per leaf pipeline/engine step method, recorded when the
method's entry `logger.info` line runs. -/
inductive StepTag
  | pStudents
  | pCourses
  | pEnrollments
  | pSubmissions
  | pActivity
  | tStudents
  | tCourses
  | tAssignments
  | tEnrollments
  | tSubmissions
  | tActivity
  | aggStudentPerf
  | aggCourseAnalytics
  | riskScores
  deriving DecidableEq

/-- Ghost-trace event: a step-method entry log line or an executed SQL
statement. -/
inductive Ev
  | log (t : StepTag)
  | sql (s : Stmt)
  deriving DecidableEq

/-- The upsert statements subject to fault injection (the statements whose
failure the code's try/except blocks are written for). -/
inductive UpsertTag
  | students
  | courses
  | enrollments
  | submissions
  | activity
  | assignments
  deriving DecidableEq

/-- The five entity batch processors of DataIngestionPipeline. -/
inductive Entity
  | students
  | courses
  | enrollments
  | submissions
  | activity
  deriving DecidableEq

/-- Whole-system state threaded through every modelled call: the warehouse,
the logical clock, the injected upsert faults, and the ghost trace. -/
structure World where
  db : Database
  now : Nat
  failing : List UpsertTag
  trace : List Ev
  deriving DecidableEq

/-- Record a step method's entry `logger.info` line (no SQL executed). -/
def logStep (t : StepTag) (w : World) : World :=
  { w with trace := w.trace ++ [Ev.log t] }

/-- Execute one SQL statement: install its effect `db'`, advance the clock,
record the statement in the trace. -/
def runSql (s : Stmt) (db' : Database) (w : World) : World :=
  { w with db := db', now := w.now + 1, trace := w.trace ++ [Ev.sql s] }

/-- Rows of a raw table whose processing_status is PENDING
(`WHERE processing_status = 'PENDING'`). -/
def pendingPayloads {α : Type} (rows : List (RawRow α)) : List α :=
  (rows.filter fun r => r.processing_status = ProcStatus.PENDING).map RawRow.payload

/-- `SELECT COUNT(*) ... WHERE processing_status = 'PENDING'` over one table's
rows. -/
def pendingCountRows {α : Type} (rows : List (RawRow α)) : Nat :=
  (rows.filter fun r => r.processing_status = ProcStatus.PENDING).length

/-- `UPDATE ... SET processing_status = 'PROCESSED' WHERE processing_status =
'PENDING'` over one table's rows. -/
def markAllProcessedRows {α : Type} (rows : List (RawRow α)) : List (RawRow α) :=
  rows.map fun r =>
    if r.processing_status = ProcStatus.PENDING then
      { r with processing_status := ProcStatus.PROCESSED }
    else r

/-- Pending-row count of the named raw table. -/
def rawPendingCount (db : Database) : RawTable → Nat
  | RawTable.RAW_STUDENTS => pendingCountRows db.raw_students
  | RawTable.RAW_COURSES => pendingCountRows db.raw_courses
  | RawTable.RAW_ENROLLMENTS => pendingCountRows db.raw_enrollments
  | RawTable.RAW_SUBMISSIONS => pendingCountRows db.raw_submissions
  | RawTable.RAW_ACTIVITY_LOGS => pendingCountRows db.raw_activity_logs
  | RawTable.RAW_ASSIGNMENTS => pendingCountRows db.raw_assignments

/-- Effect of the mark-processed UPDATE on the named raw table. -/
def applyMarkProcessed (db : Database) : RawTable → Database
  | RawTable.RAW_STUDENTS => { db with raw_students := markAllProcessedRows db.raw_students }
  | RawTable.RAW_COURSES => { db with raw_courses := markAllProcessedRows db.raw_courses }
  | RawTable.RAW_ENROLLMENTS => { db with raw_enrollments := markAllProcessedRows db.raw_enrollments }
  | RawTable.RAW_SUBMISSIONS => { db with raw_submissions := markAllProcessedRows db.raw_submissions }
  | RawTable.RAW_ACTIVITY_LOGS => { db with raw_activity_logs := markAllProcessedRows db.raw_activity_logs }
  | RawTable.RAW_ASSIGNMENTS => { db with raw_assignments := markAllProcessedRows db.raw_assignments }

/-- DataIngestionPipeline._get_pending_count (ingestion.py lines 29-36). -/
def get_pending_count (t : RawTable) (w : World) : Nat × World :=
  (rawPendingCount w.db t, runSql (Stmt.countPending t) w.db w)

/-- DataIngestionPipeline._mark_processed (ingestion.py lines 38-44). -/
def mark_processed (t : RawTable) (w : World) : World :=
  runSql (Stmt.markProcessed t) (applyMarkProcessed w.db t) w

/-- Message carried by an injected upsert-statement failure. -/
def sqlFailMsg : UpsertTag → String
  | UpsertTag.students => "SQL error in MERGE INTO DIM_STUDENTS"
  | UpsertTag.courses => "SQL error in MERGE INTO DIM_COURSES"
  | UpsertTag.enrollments => "SQL error in MERGE INTO FACT_ENROLLMENTS"
  | UpsertTag.submissions => "SQL error in MERGE INTO FACT_SUBMISSIONS"
  | UpsertTag.activity => "SQL error in INSERT INTO FACT_ACTIVITY_LOGS"
  | UpsertTag.assignments => "SQL error in MERGE INTO DIM_ASSIGNMENTS"

/-- WHEN MATCHED / WHEN NOT MATCHED arm of the DIM_STUDENTS MERGE for one
source row (ingestion.py lines 91-111): match on student_id; the update arm
does not touch enrollment_date / expected_graduation. -/
def upsertDimStudent (now : Nat) (dim : List DimStudent) (p : StudentPayload) :
    List DimStudent :=
  if dim.any fun r => r.student_id = p.student_id then
    dim.map fun r =>
      if r.student_id = p.student_id then
        { r with
          canvas_user_id := p.canvas_user_id
          first_name := p.first_name
          last_name := p.last_name
          email := p.email
          major := p.major
          classification := p.classification
          enrollment_status := p.enrollment_status
          gpa := p.gpa
          advisor_id := p.advisor_id
          updated_at := now }
      else r
  else
    dim ++ [{ student_key := dim.length
              student_id := p.student_id
              canvas_user_id := p.canvas_user_id
              first_name := p.first_name
              last_name := p.last_name
              email := p.email
              major := p.major
              classification := p.classification
              enrollment_status := p.enrollment_status
              enrollment_date := p.enrollment_date
              expected_graduation := p.expected_graduation
              gpa := p.gpa
              advisor_id := p.advisor_id
              updated_at := now
              is_current := none }]

/-- Effect on the warehouse of the MERGE INTO DIM_STUDENTS statement:
upsert every pending RAW_STUDENTS payload. -/
def mergeStudentsDb (now : Nat) (db : Database) : Database :=
  { db with dim_students :=
      (pendingPayloads db.raw_students).foldl (upsertDimStudent now) db.dim_students }

/-- WHEN MATCHED / WHEN NOT MATCHED arm of the DIM_COURSES MERGE for one
source row (ingestion.py lines 158-183): match on course_id; the update arm
rewrites every payload column. -/
def upsertDimCourse (now : Nat) (dim : List DimCourse) (p : CoursePayload) :
    List DimCourse :=
  if dim.any fun r => r.course_id = p.course_id then
    dim.map fun r =>
      if r.course_id = p.course_id then
        { r with
          canvas_course_id := p.canvas_course_id
          course_code := p.course_code
          course_name := p.course_name
          department := p.department
          credit_hours := p.credit_hours
          course_level := p.course_level
          delivery_mode := p.delivery_mode
          term := p.term
          academic_year := p.academic_year
          instructor_id := p.instructor_id
          instructor_name := p.instructor_name
          start_date := p.start_date
          end_date := p.end_date
          max_enrollment := p.max_enrollment
          updated_at := now }
      else r
  else
    dim ++ [{ course_key := dim.length
              course_id := p.course_id
              canvas_course_id := p.canvas_course_id
              course_code := p.course_code
              course_name := p.course_name
              department := p.department
              credit_hours := p.credit_hours
              course_level := p.course_level
              delivery_mode := p.delivery_mode
              term := p.term
              academic_year := p.academic_year
              instructor_id := p.instructor_id
              instructor_name := p.instructor_name
              start_date := p.start_date
              end_date := p.end_date
              max_enrollment := p.max_enrollment
              updated_at := now
              is_current := none }]

/-- Effect on the warehouse of the MERGE INTO DIM_COURSES statement. -/
def mergeCoursesDb (now : Nat) (db : Database) : Database :=
  { db with dim_courses :=
      (pendingPayloads db.raw_courses).foldl (upsertDimCourse now) db.dim_courses }

/-- LEFT JOIN DIM_STUDENTS ON student_id: the surrogate key of the first
matching dimension row, NULL when unmatched. -/
def lookupStudentKey (db : Database) (sid : String) : Option Nat :=
  (db.dim_students.find? fun s => s.student_id = sid).map DimStudent.student_key

/-- LEFT JOIN DIM_COURSES ON course_id. -/
def lookupCourseKey (db : Database) (cid : String) : Option Nat :=
  (db.dim_courses.find? fun c => c.course_id = cid).map DimCourse.course_key

/-- LEFT JOIN DIM_ASSIGNMENTS ON assignment_id. -/
def lookupAssignmentKey (db : Database) (aid : String) : Option Nat :=
  (db.dim_assignments.find? fun a => a.assignment_id = aid).map DimAssignment.assignment_key

/-- WHEN MATCHED / WHEN NOT MATCHED arm of the FACT_ENROLLMENTS MERGE
(ingestion.py lines 230-245): match on enrollment_id; the update arm touches
enrollment_state, completed_at, final_grade, final_score, updated_at only. -/
def upsertFactEnrollment (db : Database) (now : Nat) (facts : List FactEnrollment)
    (p : EnrollmentPayload) : List FactEnrollment :=
  if facts.any fun r => r.enrollment_id = p.enrollment_id then
    facts.map fun r =>
      if r.enrollment_id = p.enrollment_id then
        { r with
          enrollment_state := p.enrollment_state
          completed_at := p.completed_at
          final_grade := p.final_grade
          final_score := p.final_score
          updated_at := now }
      else r
  else
    facts ++ [{ enrollment_id := p.enrollment_id
                student_key := lookupStudentKey db p.student_id
                course_key := lookupCourseKey db p.course_id
                student_id := p.student_id
                course_id := p.course_id
                enrollment_state := p.enrollment_state
                enrollment_type := p.enrollment_type
                enrolled_at := p.enrolled_at
                completed_at := p.completed_at
                final_grade := p.final_grade
                final_score := p.final_score
                updated_at := now }]

/-- Effect on the warehouse of the MERGE INTO FACT_ENROLLMENTS statement. -/
def mergeEnrollmentsDb (now : Nat) (db : Database) : Database :=
  { db with fact_enrollments :=
      ((pendingPayloads db.raw_enrollments).foldl (upsertFactEnrollment db now)
        db.fact_enrollments) }

/-- WHEN MATCHED / WHEN NOT MATCHED arm of the FACT_SUBMISSIONS MERGE
(ingestion.py lines 298-317): match on submission_id. -/
def upsertFactSubmission (db : Database) (now : Nat) (facts : List FactSubmission)
    (p : SubmissionPayload) : List FactSubmission :=
  if facts.any fun r => r.submission_id = p.submission_id then
    facts.map fun r =>
      if r.submission_id = p.submission_id then
        { r with
          graded_at := p.graded_at
          score := p.score
          grade := p.grade
          percentage := p.percentage
          late_flag := p.late_flag
          missing_flag := p.missing_flag
          excused_flag := p.excused_flag
          grader_id := p.grader_id
          updated_at := now }
      else r
  else
    facts ++ [{ submission_id := p.submission_id
                student_key := lookupStudentKey db p.student_id
                assignment_key := lookupAssignmentKey db p.assignment_id
                student_id := p.student_id
                assignment_id := p.assignment_id
                submitted_at := p.submitted_at
                graded_at := p.graded_at
                score := p.score
                grade := p.grade
                points_possible := p.points_possible
                percentage := p.percentage
                submission_type := p.submission_type
                attempt_number := p.attempt_number
                late_flag := p.late_flag
                missing_flag := p.missing_flag
                excused_flag := p.excused_flag
                grader_id := p.grader_id
                updated_at := now }]

/-- Effect on the warehouse of the MERGE INTO FACT_SUBMISSIONS statement. -/
def mergeSubmissionsDb (now : Nat) (db : Database) : Database :=
  { db with fact_submissions :=
      ((pendingPayloads db.raw_submissions).foldl (upsertFactSubmission db now)
        db.fact_submissions) }

/-- One inserted FACT_ACTIVITY_LOGS row of the INSERT ... SELECT
(ingestion.py lines 343-366). -/
def activityFactRow (db : Database) (p : ActivityPayload) : FactActivity :=
  { activity_id := p.activity_id
    student_key := lookupStudentKey db p.student_id
    course_key := lookupCourseKey db p.course_id
    student_id := p.student_id
    course_id := p.course_id
    activity_type := p.activity_type
    activity_timestamp := p.activity_timestamp
    duration_seconds := p.duration_seconds
    page_url := p.page_url
    device_type := p.device_type
    browser := p.browser
    ip_address := p.ip_address }

/-- Effect on the warehouse of the INSERT INTO FACT_ACTIVITY_LOGS statement:
a plain append of every pending row (no dedup / upsert). -/
def insertActivityLogsDb (db : Database) : Database :=
  { db with fact_activity_logs :=
      db.fact_activity_logs ++
        (pendingPayloads db.raw_activity_logs).map (activityFactRow db) }

/-- DataIngestionPipeline.process_students (ingestion.py lines 57-120). -/
def process_students (w : World) : Except String Nat × World :=
  let w := logStep StepTag.pStudents w
  let (pending_count, w) := get_pending_count RawTable.RAW_STUDENTS w
  if pending_count = 0 then
    (Except.ok 0, w)
  else if UpsertTag.students ∈ w.failing then
    (Except.error (sqlFailMsg UpsertTag.students), runSql Stmt.mergeStudents w.db w)
  else
    let w := runSql Stmt.mergeStudents (mergeStudentsDb w.now w.db) w
    let w := mark_processed RawTable.RAW_STUDENTS w
    (Except.ok pending_count, w)

/-- DataIngestionPipeline.process_courses (ingestion.py lines 122-192). -/
def process_courses (w : World) : Except String Nat × World :=
  let w := logStep StepTag.pCourses w
  let (pending_count, w) := get_pending_count RawTable.RAW_COURSES w
  if pending_count = 0 then
    (Except.ok 0, w)
  else if UpsertTag.courses ∈ w.failing then
    (Except.error (sqlFailMsg UpsertTag.courses), runSql Stmt.mergeCourses w.db w)
  else
    let w := runSql Stmt.mergeCourses (mergeCoursesDb w.now w.db) w
    let w := mark_processed RawTable.RAW_COURSES w
    (Except.ok pending_count, w)

/-- DataIngestionPipeline.process_enrollments (ingestion.py lines 194-254). -/
def process_enrollments (w : World) : Except String Nat × World :=
  let w := logStep StepTag.pEnrollments w
  let (pending_count, w) := get_pending_count RawTable.RAW_ENROLLMENTS w
  if pending_count = 0 then
    (Except.ok 0, w)
  else if UpsertTag.enrollments ∈ w.failing then
    (Except.error (sqlFailMsg UpsertTag.enrollments), runSql Stmt.mergeEnrollments w.db w)
  else
    let w := runSql Stmt.mergeEnrollments (mergeEnrollmentsDb w.now w.db) w
    let w := mark_processed RawTable.RAW_ENROLLMENTS w
    (Except.ok pending_count, w)

/-- DataIngestionPipeline.process_submissions (ingestion.py lines 256-326). -/
def process_submissions (w : World) : Except String Nat × World :=
  let w := logStep StepTag.pSubmissions w
  let (pending_count, w) := get_pending_count RawTable.RAW_SUBMISSIONS w
  if pending_count = 0 then
    (Except.ok 0, w)
  else if UpsertTag.submissions ∈ w.failing then
    (Except.error (sqlFailMsg UpsertTag.submissions), runSql Stmt.mergeSubmissions w.db w)
  else
    let w := runSql Stmt.mergeSubmissions (mergeSubmissionsDb w.now w.db) w
    let w := mark_processed RawTable.RAW_SUBMISSIONS w
    (Except.ok pending_count, w)

/-- DataIngestionPipeline.process_activity_logs (ingestion.py lines 328-375). -/
def process_activity_logs (w : World) : Except String Nat × World :=
  let w := logStep StepTag.pActivity w
  let (pending_count, w) := get_pending_count RawTable.RAW_ACTIVITY_LOGS w
  if pending_count = 0 then
    (Except.ok 0, w)
  else if UpsertTag.activity ∈ w.failing then
    (Except.error (sqlFailMsg UpsertTag.activity), runSql Stmt.insertActivityLogs w.db w)
  else
    let w := runSql Stmt.insertActivityLogs (insertActivityLogsDb w.db) w
    let w := mark_processed RawTable.RAW_ACTIVITY_LOGS w
    (Except.ok pending_count, w)

/-- The batch processor of each entity type. -/
def processorOf : Entity → World → Except String Nat × World
  | Entity.students => process_students
  | Entity.courses => process_courses
  | Entity.enrollments => process_enrollments
  | Entity.submissions => process_submissions
  | Entity.activity => process_activity_logs

/-- The raw table each batch processor reads. -/
def rawTableOf : Entity → RawTable
  | Entity.students => RawTable.RAW_STUDENTS
  | Entity.courses => RawTable.RAW_COURSES
  | Entity.enrollments => RawTable.RAW_ENROLLMENTS
  | Entity.submissions => RawTable.RAW_SUBMISSIONS
  | Entity.activity => RawTable.RAW_ACTIVITY_LOGS

/-- The upsert statement each batch processor issues. -/
def upsertTagOf : Entity → UpsertTag
  | Entity.students => UpsertTag.students
  | Entity.courses => UpsertTag.courses
  | Entity.enrollments => UpsertTag.enrollments
  | Entity.submissions => UpsertTag.submissions
  | Entity.activity => UpsertTag.activity

/-- The step-entry log tag of each batch processor. -/
def procTagOf : Entity → StepTag
  | Entity.students => StepTag.pStudents
  | Entity.courses => StepTag.pCourses
  | Entity.enrollments => StepTag.pEnrollments
  | Entity.submissions => StepTag.pSubmissions
  | Entity.activity => StepTag.pActivity

/-- DataIngestionPipeline.process_all_raw_data (ingestion.py lines 377-392):
the five processors in sequence, counts summed, exceptions propagating. -/
def process_all_raw_data (w : World) : Except String Nat × World :=
  match process_students w with
  | (Except.error e, w1) => (Except.error e, w1)
  | (Except.ok n1, w1) =>
    match process_courses w1 with
    | (Except.error e, w2) => (Except.error e, w2)
    | (Except.ok n2, w2) =>
      match process_enrollments w2 with
      | (Except.error e, w3) => (Except.error e, w3)
      | (Except.ok n3, w3) =>
        match process_submissions w3 with
        | (Except.error e, w4) => (Except.error e, w4)
        | (Except.ok n4, w4) =>
          match process_activity_logs w4 with
          | (Except.error e, w5) => (Except.error e, w5)
          | (Except.ok n5, w5) => (Except.ok (n1 + n2 + n3 + n4 + n5), w5)

/-- DataIngestionPipeline.process_incremental (ingestion.py lines 394-399). -/
def process_incremental (w : World) : Except String Nat × World :=
  process_all_raw_data w

/-- TransformationEngine.transform_students (transformations.py lines 27-48):
UPDATE DIM_STUDENTS rows that are Active and stale by more than one hour;
returns the affected-row count reported by the UPDATE. -/
def transform_students (w : World) : Except String Nat × World :=
  let w := logStep StepTag.tStudents w
  let cond : DimStudent → Bool := fun s =>
    (s.enrollment_status = some "Active") && (s.updated_at < w.now - 3600)
  let count := (w.db.dim_students.filter cond).length
  let db' := { w.db with dim_students :=
      (w.db.dim_students.map fun s =>
        if cond s then { s with updated_at := w.now, is_current := some true } else s) }
  (Except.ok count, runSql Stmt.updateDimStudents db' w)

/-- TransformationEngine.transform_courses (transformations.py lines 50-68):
UPDATE DIM_COURSES SET is_current = TRUE where it is NULL or FALSE. -/
def transform_courses (w : World) : Except String Nat × World :=
  let w := logStep StepTag.tCourses w
  let cond : DimCourse → Bool := fun c =>
    (c.is_current = none) || (c.is_current = some false)
  let count := (w.db.dim_courses.filter cond).length
  let db' := { w.db with dim_courses :=
      (w.db.dim_courses.map fun c =>
        if cond c then { c with is_current := some true, updated_at := w.now } else c) }
  (Except.ok count, runSql Stmt.updateDimCourses db' w)

/-- WHEN MATCHED / WHEN NOT MATCHED arm of the DIM_ASSIGNMENTS MERGE
(transformations.py lines 98-113): match on assignment_id; the update arm
touches assignment_name, points_possible, due_date, weight, updated_at. -/
def upsertDimAssignment (now : Nat) (dim : List DimAssignment) (p : AssignmentPayload) :
    List DimAssignment :=
  if dim.any fun r => r.assignment_id = p.assignment_id then
    dim.map fun r =>
      if r.assignment_id = p.assignment_id then
        { r with
          assignment_name := p.assignment_name
          points_possible := p.points_possible
          due_date := p.due_date
          weight := p.weight
          updated_at := now }
      else r
  else
    dim ++ [{ assignment_key := dim.length
              assignment_id := p.assignment_id
              canvas_assignment_id := p.canvas_assignment_id
              course_id := p.course_id
              assignment_name := p.assignment_name
              assignment_type := p.assignment_type
              points_possible := p.points_possible
              due_date := p.due_date
              unlock_date := p.unlock_date
              lock_date := p.lock_date
              submission_types := p.submission_types
              is_group_assignment := p.is_group_assignment
              weight := p.weight
              updated_at := now }]

/-- Effect on the warehouse of the MERGE INTO DIM_ASSIGNMENTS statement. -/
def mergeAssignmentsDb (now : Nat) (db : Database) : Database :=
  { db with dim_assignments :=
      (pendingPayloads db.raw_assignments).foldl (upsertDimAssignment now) db.dim_assignments }

/-- TransformationEngine.transform_assignments (transformations.py lines
70-124): MERGE pending RAW_ASSIGNMENTS into DIM_ASSIGNMENTS (issued
unconditionally, with no pending-count pre-check and no try/except), then the
inline UPDATE marking pending rows PROCESSED, then `return 0`. -/
def transform_assignments (w : World) : Except String Nat × World :=
  let w := logStep StepTag.tAssignments w
  if UpsertTag.assignments ∈ w.failing then
    (Except.error (sqlFailMsg UpsertTag.assignments), runSql Stmt.mergeAssignments w.db w)
  else
    let w := runSql Stmt.mergeAssignments (mergeAssignmentsDb w.now w.db) w
    let w := runSql (Stmt.markProcessed RawTable.RAW_ASSIGNMENTS)
      (applyMarkProcessed w.db RawTable.RAW_ASSIGNMENTS) w
    (Except.ok 0, w)

/-- TransformationEngine.transform_enrollments (transformations.py lines
126-129): log only, return 0. -/
def transform_enrollments (w : World) : Except String Nat × World :=
  (Except.ok 0, logStep StepTag.tEnrollments w)

/-- TransformationEngine.transform_submissions (transformations.py lines
131-134): log only, return 0. -/
def transform_submissions (w : World) : Except String Nat × World :=
  (Except.ok 0, logStep StepTag.tSubmissions w)

/-- TransformationEngine.transform_activity_logs (transformations.py lines
136-139): log only, return 0. -/
def transform_activity_logs (w : World) : Except String Nat × World :=
  (Except.ok 0, logStep StepTag.tActivity w)

/-- Snowflake ROUND(x, d): round half away from zero to d decimal places,
as an integer numerator. -/
def sqlRoundInt (q : Rat) : Int :=
  if 0 ≤ q then ⌊q + 1 / 2⌋ else -⌊1 / 2 - q⌋

/-- Snowflake ROUND(x, d) as a rational. -/
def sqlRound (q : Rat) (d : Nat) : Rat :=
  ((sqlRoundInt (q * (10 : Rat) ^ d) : Int) : Rat) / (10 : Rat) ^ d

/-- SQL SUM over a column's non-NULL values: NULL when there are none. -/
def ratSum (xs : List Rat) : Option Rat :=
  if xs.isEmpty then none else some xs.sum

/-- SQL SUM over an integer column's non-NULL values. -/
def intSum (xs : List Int) : Option Int :=
  if xs.isEmpty then none else some xs.sum

/-- SQL AVG over a column's non-NULL values: NULL when there are none. -/
def ratAvg (xs : List Rat) : Option Rat :=
  if xs.isEmpty then none else some (xs.sum / (xs.length : Rat))

/-- SQL MEDIAN over a column's non-NULL values: the middle element of the
sorted values, or the mean of the two middle elements. -/
def ratMedian (xs : List Rat) : Option Rat :=
  let sorted := xs.mergeSort fun a b => a ≤ b
  let n := xs.length
  if n = 0 then none
  else if n % 2 = 1 then some (sorted.getD (n / 2) 0)
  else some ((sorted.getD (n / 2 - 1) 0 + sorted.getD (n / 2) 0) / 2)

/-- LEFT JOIN row expansion: the matching right-hand rows, or a single NULL
row when none match. -/
def leftJoinOpt {β : Type} (ms : List β) : List (Option β) :=
  if ms.isEmpty then [none] else ms.map some

/-- One row of the FROM/JOIN clause of the student-performance aggregation
(transformations.py lines 171-181). -/
structure PerfJoinRow where
  s : DimStudent
  e : FactEnrollment
  c : DimCourse
  a : Option DimAssignment
  sub : Option FactSubmission
  act : Option FactActivity

/-- FROM DIM_STUDENTS INNER JOIN FACT_ENROLLMENTS INNER JOIN DIM_COURSES
LEFT JOIN DIM_ASSIGNMENTS LEFT JOIN FACT_SUBMISSIONS LEFT JOIN
FACT_ACTIVITY_LOGS, with the ON conditions of transformations.py lines
171-181 (a NULL-valued join column never matches). -/
def perfJoin (db : Database) : List PerfJoinRow :=
  db.dim_students.flatMap fun s =>
    (db.fact_enrollments.filter fun e => e.student_id = s.student_id).flatMap fun e =>
      (db.dim_courses.filter fun c => c.course_id = e.course_id).flatMap fun c =>
        (leftJoinOpt (db.dim_assignments.filter fun a =>
            a.course_id = c.course_id)).flatMap fun oa =>
          (leftJoinOpt (db.fact_submissions.filter fun sub =>
              (sub.student_id = s.student_id) &&
                (match oa with
                 | some a => sub.assignment_id = a.assignment_id
                 | none => false))).flatMap fun osub =>
            (leftJoinOpt (db.fact_activity_logs.filter fun act =>
                (act.student_id = s.student_id) &&
                  (act.course_id = c.course_id))).map fun oact =>
              { s := s, e := e, c := c, a := oa, sub := osub, act := oact }

/-- The GROUP BY key of the student-performance aggregation:
(s.student_id, c.course_id, c.term, e.final_grade). -/
def perfKey (r : PerfJoinRow) : String × String × Option String × Option String :=
  (r.s.student_id, r.c.course_id, r.c.term, r.e.final_grade)

/-- Result rows of the INSERT ... SELECT of aggregate_student_performance
(transformations.py lines 155-183), with CURRENT_TIMESTAMP() = `now`. -/
def agg_student_perf_select (db : Database) (now : Nat) : List AggStudentPerfRow :=
  let rows := perfJoin db
  ((rows.map perfKey).dedup).map fun k =>
    let grp := rows.filter fun r => perfKey r = k
    { student_id := k.1
      course_id := k.2.1
      term := k.2.2.1
      total_assignments :=
        ((grp.filterMap fun r => r.a.map DimAssignment.assignment_id).dedup).length
      completed_assignments :=
        ((grp.filterMap fun r => r.sub.map FactSubmission.submission_id).dedup).length
      avg_score :=
        ((ratAvg (grp.filterMap fun r => r.sub.bind FactSubmission.percentage)).map
          fun q => sqlRound q 2)
      total_points_earned := ratSum (grp.filterMap fun r => r.sub.bind FactSubmission.score)
      total_points_possible :=
        ratSum (grp.filterMap fun r => r.sub.bind FactSubmission.points_possible)
      late_submissions :=
        (grp.filter fun r => (r.sub.bind FactSubmission.late_flag) = some true).length
      missing_submissions :=
        (grp.filter fun r => (r.sub.bind FactSubmission.missing_flag) = some true).length
      total_activity_minutes :=
        (match intSum (grp.filterMap fun r => r.act.bind FactActivity.duration_seconds) with
         | none => 0
         | some d => sqlRound ((d : Rat) / 60) 0)
      last_activity_date :=
        (((grp.filterMap fun r => r.act.bind FactActivity.activity_timestamp).max?).map
          fun ts => ts / 86400)
      current_grade := k.2.2.2
      calculated_at := now }

/-- TransformationEngine.aggregate_student_performance (transformations.py
lines 141-192): TRUNCATE, INSERT ... SELECT, then SELECT COUNT(*). -/
def aggregate_student_performance (w : World) : Except String Nat × World :=
  let w := logStep StepTag.aggStudentPerf w
  let w := runSql Stmt.truncateAggStudentPerf
    { w.db with agg_student_course_performance := [] } w
  let w := runSql Stmt.insertAggStudentPerf
    { w.db with agg_student_course_performance := agg_student_perf_select w.db w.now } w
  let count := w.db.agg_student_course_performance.length
  let w := runSql Stmt.countAggStudentPerf w.db w
  (Except.ok count, w)

/-- One row of the act_agg subquery of aggregate_course_analytics
(transformations.py lines 234-241): FACT_ACTIVITY_LOGS grouped by
(student_id, course_id). -/
structure ActAggRow where
  student_id : String
  course_id : String
  total_minutes : Option Rat

/-- The act_agg subquery result. -/
def actAggRows (db : Database) : List ActAggRow :=
  let logs := db.fact_activity_logs
  ((logs.map fun l => (l.student_id, l.course_id)).dedup).map fun k =>
    { student_id := k.1
      course_id := k.2
      total_minutes :=
        ((intSum ((logs.filter fun l => (l.student_id, l.course_id) = k).filterMap
            FactActivity.duration_seconds)).map fun d => sqlRound ((d : Rat) / 60) 0) }

/-- One row of the FROM/JOIN clause of aggregate_course_analytics
(transformations.py lines 231-242). -/
structure CourseJoinRow where
  c : DimCourse
  e : FactEnrollment
  act : Option ActAggRow

/-- FROM DIM_COURSES INNER JOIN FACT_ENROLLMENTS ON course_id LEFT JOIN
act_agg ON (student_id, course_id). -/
def courseJoin (db : Database) : List CourseJoinRow :=
  db.dim_courses.flatMap fun c =>
    (db.fact_enrollments.filter fun e => e.course_id = c.course_id).flatMap fun e =>
      (leftJoinOpt ((actAggRows db).filter fun a =>
          (a.student_id = e.student_id) && (a.course_id = c.course_id))).map fun oact =>
        { c := c, e := e, act := oact }

/-- Result rows of the INSERT ... SELECT of aggregate_course_analytics
(transformations.py lines 208-244), with CURRENT_TIMESTAMP() = `now`. -/
def agg_course_analytics_select (db : Database) (now : Nat) : List AggCourseAnalyticsRow :=
  let rows := courseJoin db
  ((rows.map fun r => (r.c.course_id, r.c.term)).dedup).map fun k =>
    let grp := rows.filter fun r => (r.c.course_id, r.c.term) = k
    { course_id := k.1
      term := k.2
      total_enrolled := ((grp.map fun r => r.e.student_id).dedup).length
      active_students :=
        ((grp.filterMap fun r =>
          if r.e.enrollment_state = some "active" then some r.e.student_id
          else none).dedup).length
      avg_class_score :=
        ((ratAvg (grp.filterMap fun r => r.e.final_score)).map fun q => sqlRound q 2)
      median_class_score :=
        ((ratMedian (grp.filterMap fun r => r.e.final_score)).map fun q => sqlRound q 2)
      grade_distribution :=
        { a := (grp.filter fun r => r.e.final_grade ∈ [some "A", some "A-"]).length
          b := (grp.filter fun r =>
            r.e.final_grade ∈ [some "B+", some "B", some "B-"]).length
          c := (grp.filter fun r =>
            r.e.final_grade ∈ [some "C+", some "C", some "C-"]).length
          d := (grp.filter fun r =>
            r.e.final_grade ∈ [some "D+", some "D", some "D-"]).length
          f := (grp.filter fun r => r.e.final_grade = some "F").length }
      completion_rate :=
        (if grp.length = 0 then none
         else some (sqlRound
           (((grp.filter fun r => r.e.enrollment_state = some "completed").length : Rat)
             * 100 / (grp.length : Rat)) 2))
      avg_engagement_minutes :=
        ((ratAvg (grp.filterMap fun r => r.act.bind ActAggRow.total_minutes)).map
          fun q => sqlRound q 0)
      at_risk_students :=
        (grp.filter fun r =>
          match r.e.final_score with
          | some q => decide (q < 60)
          | none => false).length
      calculated_at := now }

/-- TransformationEngine.aggregate_course_analytics (transformations.py lines
194-253): TRUNCATE, INSERT ... SELECT, then SELECT COUNT(*). -/
def aggregate_course_analytics (w : World) : Except String Nat × World :=
  let w := logStep StepTag.aggCourseAnalytics w
  let w := runSql Stmt.truncateAggCourseAnalytics
    { w.db with agg_course_analytics := [] } w
  let w := runSql Stmt.insertAggCourseAnalytics
    { w.db with agg_course_analytics := agg_course_analytics_select w.db w.now } w
  let count := w.db.agg_course_analytics.length
  let w := runSql Stmt.countAggCourseAnalytics w.db w
  (Except.ok count, w)

/-- TransformationEngine.calculate_student_risk_scores (transformations.py
lines 255-285): a SELECT over AGG_STUDENT_COURSE_PERFORMANCE grouped by
student_id with the HAVING clause of lines 278-280; returns len(result). -/
def calculate_student_risk_scores (w : World) : Except String Nat × World :=
  let w := logStep StepTag.riskScores w
  let agg := w.db.agg_student_course_performance
  let result := ((agg.map AggStudentPerfRow.student_id).dedup).filter fun k =>
    let grp := agg.filter fun r => r.student_id = k
    let avgOfAvg := ratAvg (grp.filterMap AggStudentPerfRow.avg_score)
    (match avgOfAvg with
     | some q => decide (q < 70)
     | none => false) ||
      ((grp.map AggStudentPerfRow.late_submissions).sum > 5) ||
      ((grp.map AggStudentPerfRow.missing_submissions).sum > 3)
  (Except.ok result.length, runSql Stmt.selectRiskStudents w.db w)

/-- TransformationEngine.run_all_transformations (transformations.py lines
287-303): the six steps in sequence, counts summed, exceptions propagating. -/
def run_all_transformations (w : World) : Except String Nat × World :=
  match transform_students w with
  | (Except.error e, w1) => (Except.error e, w1)
  | (Except.ok n1, w1) =>
    match transform_courses w1 with
    | (Except.error e, w2) => (Except.error e, w2)
    | (Except.ok n2, w2) =>
      match transform_assignments w2 with
      | (Except.error e, w3) => (Except.error e, w3)
      | (Except.ok n3, w3) =>
        match aggregate_student_performance w3 with
        | (Except.error e, w4) => (Except.error e, w4)
        | (Except.ok n4, w4) =>
          match aggregate_course_analytics w4 with
          | (Except.error e, w5) => (Except.error e, w5)
          | (Except.ok n5, w5) =>
            match calculate_student_risk_scores w5 with
            | (Except.error e, w6) => (Except.error e, w6)
            | (Except.ok n6, w6) => (Except.ok (n1 + n2 + n3 + n4 + n5 + n6), w6)

/-- TransformationEngine.run_incremental_transformations (transformations.py
lines 305-310). -/
def run_incremental_transformations (w : World) : Except String Nat × World :=
  run_all_transformations w

/-- An entry of job_state["running_jobs"]; only its "job_id" key is ever
read (main.py line 174). -/
structure RunningJob where
  job_id : String
  deriving DecidableEq

/-- The global job_state dict (main.py lines 56-61). -/
structure JobState where
  last_run : Option Nat
  records_processed : Nat
  errors : Nat
  running_jobs : List RunningJob
  deriving DecidableEq

/-- Initial value of job_state (main.py lines 56-61). -/
def initial_job_state : JobState :=
  { last_run := none, records_processed := 0, errors := 0, running_jobs := [] }

/-- `records += step_a(); records += step_b()` with Python exception
propagation: run the two steps of one job type in order, summing counts. -/
def seqSteps (f g : World → Except String Nat × World) (w : World) :
    Except String Nat × World :=
  match f w with
  | (Except.error e, w1) => (Except.error e, w1)
  | (Except.ok n1, w1) =>
    match g w1 with
    | (Except.error e, w2) => (Except.error e, w2)
    | (Except.ok n2, w2) => (Except.ok (n1 + n2), w2)

/-- The job_type if/elif chain, which appears verbatim both in
execute_etl_job (main.py lines 139-161) and in run_etl_snowflake (main.py
lines 224-247): `none` is the fall-through else branch (unknown job type). -/
def dispatchJob (job_type : String) (w : World) : Option (Except String Nat × World) :=
  if job_type = "FULL_REFRESH" then
    some (seqSteps process_all_raw_data run_all_transformations w)
  else if job_type = "INCREMENTAL" then
    some (seqSteps process_incremental run_incremental_transformations w)
  else if job_type = "STUDENTS" then
    some (seqSteps process_students transform_students w)
  else if job_type = "COURSES" then
    some (seqSteps process_courses transform_courses w)
  else if job_type = "ENROLLMENTS" then
    some (seqSteps process_enrollments transform_enrollments w)
  else if job_type = "SUBMISSIONS" then
    some (seqSteps process_submissions transform_submissions w)
  else if job_type = "ACTIVITY" then
    some (seqSteps process_activity_logs transform_activity_logs w)
  else
    none

/-- The accepted job-type tokens of the dispatch chain. -/
def knownJobTypes : List String :=
  ["FULL_REFRESH", "INCREMENTAL", "STUDENTS", "COURSES", "ENROLLMENTS",
   "SUBMISSIONS", "ACTIVITY"]

/-- One row of a Snowflake service-function request
`{"data": [[row_index, arg1, ...], ...]}`. -/
structure SfRow where
  row_index : Nat
  args : List String

/-- One iteration of the run_etl_snowflake row loop (main.py lines 211-258):
`job_type = row[1] if len(row) > 1 else "FULL_REFRESH"`; unknown job type
appends a message and continues without touching job_state; success adds the
record count and sets last_run; an exception increments the error counter. -/
def run_etl_row (row : SfRow) (w : World) (js : JobState) :
    (Nat × String) × World × JobState :=
  let jt := row.args.headD "FULL_REFRESH"
  match dispatchJob jt w with
  | none => ((row.row_index, "Unknown job type: " ++ jt), w, js)
  | some (Except.ok records, w') =>
    ((row.row_index, "ETL " ++ jt ++ " completed. Records processed: " ++ toString records),
     w',
     { js with
       records_processed := js.records_processed + records
       last_run := some w'.now })
  | some (Except.error e, w') =>
    ((row.row_index, "Error: " ++ e), w', { js with errors := js.errors + 1 })

/-- The row loop of run_etl_snowflake. -/
def run_etl_rows : List SfRow → World → JobState →
    List (Nat × String) × World × JobState
  | [], w, js => ([], w, js)
  | row :: rest, w, js =>
    let (res, w1, js1) := run_etl_row row w js
    let (more, w2, js2) := run_etl_rows rest w1 js1
    (res :: more, w2, js2)

/-- POST /run_etl: run_etl_snowflake (main.py lines 202-260); returns the
per-row result messages (the endpoint's HTTP status is always 200). -/
def run_etl_snowflake (rows : List SfRow) (w : World) (js : JobState) :
    List (Nat × String) × World × JobState :=
  run_etl_rows rows w js

/-- execute_etl_job (main.py lines 130-175): same dispatch chain, but an
unknown job type raises ValueError, every exception lands in the except
clause (errors += 1), and the finally clause filters running_jobs. -/
def execute_etl_job (job_id : String) (job_type : String) (w : World) (js : JobState) :
    World × JobState :=
  let step :=
    match dispatchJob job_type w with
    | none => (w, { js with errors := js.errors + 1 })
    | some (Except.ok records, w1) =>
      (w1,
       { js with
         records_processed := js.records_processed + records
         last_run := some w1.now })
    | some (Except.error _, w1) => (w1, { js with errors := js.errors + 1 })
  (step.1,
   { step.2 with
     running_jobs := step.2.running_jobs.filter fun j => j.job_id ≠ job_id })

/-- Body of the GET /status_get response (main.py lines 112-124). -/
structure ETLStatusResponse where
  status : String
  last_run : Option Nat
  records_processed : Nat
  errors : Nat
  running_jobs : List RunningJob
  deriving DecidableEq

/-- GET /status_get: get_status_http (main.py lines 112-124); status is
"running" when running_jobs is non-empty, else "idle". -/
def get_status_http (js : JobState) : ETLStatusResponse :=
  { status := if js.running_jobs.isEmpty then "idle" else "running"
    last_run := js.last_run
    records_processed := js.records_processed
    errors := js.errors
    running_jobs := js.running_jobs }

/-- Body of the GET /metrics response (main.py lines 181-189). -/
structure MetricsResponse where
  total_records_processed : Nat
  total_errors : Nat
  active_jobs : Nat
  uptime : String
  deriving DecidableEq

/-- GET /metrics: get_metrics (main.py lines 181-189);
active_jobs = len(running_jobs). -/
def get_metrics (js : JobState) : MetricsResponse :=
  { total_records_processed := js.records_processed
    total_errors := js.errors
    active_jobs := js.running_jobs.length
    uptime := "healthy" }

/-- The method_map of transform_snowflake (main.py lines 302-311). -/
def transformByName : String → Option (World → Except String Nat × World)
  | "student_dimension" => some transform_students
  | "course_dimension" => some transform_courses
  | "assignment_dimension" => some transform_assignments
  | "enrollment_fact" => some transform_enrollments
  | "submission_fact" => some transform_submissions
  | "activity_fact" => some transform_activity_logs
  | "student_performance_agg" => some aggregate_student_performance
  | "course_analytics_agg" => some aggregate_course_analytics
  | _ => none

/-- One iteration of the transform_snowflake row loop (main.py lines
294-322): success adds to records_processed (last_run is not touched);
unknown names and exceptions append a message only. -/
def transform_row (row : SfRow) (w : World) (js : JobState) :
    (Nat × String) × World × JobState :=
  let name := row.args.headD "student_dimension"
  match transformByName name with
  | none => ((row.row_index, "Unknown transformation: " ++ name), w, js)
  | some f =>
    match f w with
    | (Except.ok records, w') =>
      ((row.row_index, "Transformation " ++ name ++ " completed. Records: " ++ toString records),
       w', { js with records_processed := js.records_processed + records })
    | (Except.error e, w') => ((row.row_index, "Error: " ++ e), w', js)

/-- The row loop of transform_snowflake. -/
def transform_rows : List SfRow → World → JobState →
    List (Nat × String) × World × JobState
  | [], w, js => ([], w, js)
  | row :: rest, w, js =>
    let (res, w1, js1) := transform_row row w js
    let (more, w2, js2) := transform_rows rest w1 js1
    (res :: more, w2, js2)

/-- POST /transform: transform_snowflake (main.py lines 286-324). -/
def transform_snowflake (rows : List SfRow) (w : World) (js : JobState) :
    List (Nat × String) × World × JobState :=
  transform_rows rows w js

/-- The states (warehouse, job_state) the service can reach: job_state
starts as its initializer (over an arbitrary pre-existing warehouse) and
evolves only through the state-mutating handlers.  GET /status_get,
GET /metrics and POST /status are read-only and add no transition. -/
inductive Reachable : World × JobState → Prop
  | init (w : World) : Reachable (w, initial_job_state)
  | etl (rows : List SfRow) {s : World × JobState} (h : Reachable s) :
      Reachable (run_etl_snowflake rows s.1 s.2).2
  | transformCall (rows : List SfRow) {s : World × JobState} (h : Reachable s) :
      Reachable (transform_snowflake rows s.1 s.2).2
  | execJob (job_id job_type : String) {s : World × JobState} (h : Reachable s) :
      Reachable (execute_etl_job job_id job_type s.1 s.2)

/-- The step-entry log markers of a trace fragment. -/
def evMarker : Ev → Option StepTag
  | Ev.log t => some t
  | Ev.sql _ => none

/-- The shared shape of the five batch processors (proved equal to each of
process_students .. process_activity_logs below, by computation): count
pending, return 0 early, try the upsert, mark processed, return the count. -/
def processGeneric (tag : StepTag) (tbl : RawTable) (ut : UpsertTag) (stmt : Stmt)
    (eff : Nat → Database → Database) (w : World) : Except String Nat × World :=
  let w := logStep tag w
  let (pending_count, w) := get_pending_count tbl w
  if pending_count = 0 then
    (Except.ok 0, w)
  else if ut ∈ w.failing then
    (Except.error (sqlFailMsg ut), runSql stmt w.db w)
  else
    let w := runSql stmt (eff w.now w.db) w
    let w := mark_processed tbl w
    (Except.ok pending_count, w)

/-- The upsert statement tag of each batch processor. -/
def mergeStmtOf : Entity → Stmt
  | Entity.students => Stmt.mergeStudents
  | Entity.courses => Stmt.mergeCourses
  | Entity.enrollments => Stmt.mergeEnrollments
  | Entity.submissions => Stmt.mergeSubmissions
  | Entity.activity => Stmt.insertActivityLogs

/-- The warehouse effect of each batch processor's upsert statement. -/
def mergeEffOf : Entity → Nat → Database → Database
  | Entity.students => mergeStudentsDb
  | Entity.courses => mergeCoursesDb
  | Entity.enrollments => mergeEnrollmentsDb
  | Entity.submissions => mergeSubmissionsDb
  | Entity.activity => fun _ db => insertActivityLogsDb db

/-- Normalized calculated_at for comparing AGG_STUDENT_COURSE_PERFORMANCE
rows up to their recomputation timestamp. -/
def stripCalcStudent (r : AggStudentPerfRow) : AggStudentPerfRow :=
  { r with calculated_at := 0 }

/-- Normalized calculated_at for comparing AGG_COURSE_ANALYTICS rows up to
their recomputation timestamp. -/
def stripCalcCourse (r : AggCourseAnalyticsRow) : AggCourseAnalyticsRow :=
  { r with calculated_at := 0 }

/-- Decidable equality of modelled call results (needed to evaluate the
concrete witness runs). -/
instance {ε α : Type} [DecidableEq ε] [DecidableEq α] : DecidableEq (Except ε α)
  | Except.error x, Except.error y =>
    if h : x = y then isTrue (h ▸ rfl)
    else isFalse fun hc => h (Except.error.inj hc)
  | Except.error _, Except.ok _ => isFalse fun hc => Except.noConfusion hc
  | Except.ok _, Except.error _ => isFalse fun hc => Except.noConfusion hc
  | Except.ok x, Except.ok y =>
    if h : x = y then isTrue (h ▸ rfl)
    else isFalse fun hc => h (Except.ok.inj hc)

/-- An empty warehouse. -/
def emptyDb : Database :=
  { raw_students := []
    raw_courses := []
    raw_enrollments := []
    raw_submissions := []
    raw_activity_logs := []
    raw_assignments := []
    dim_students := []
    dim_courses := []
    dim_assignments := []
    fact_enrollments := []
    fact_submissions := []
    fact_activity_logs := []
    agg_student_course_performance := []
    agg_course_analytics := [] }

/-- A world with an empty warehouse and no injected faults. -/
def wEmpty : World :=
  { db := emptyDb, now := 100000, failing := [], trace := [] }

/-- A sample raw student payload. -/
def exStudent : StudentPayload :=
  { student_id := "S1"
    canvas_user_id := some 7
    first_name := some "Ann"
    last_name := none
    email := some "a@x.edu"
    major := none
    classification := none
    enrollment_status := some "Active"
    enrollment_date := none
    expected_graduation := none
    gpa := none
    advisor_id := none }

/-- A world with one PENDING raw student row and no injected faults. -/
def wPendingStudent : World :=
  { db := { emptyDb with raw_students :=
      [{ raw_id := "R1", payload := exStudent, processing_status := ProcStatus.PENDING }] }
    now := 100000
    failing := []
    trace := [] }

/-- The same world with the DIM_STUDENTS MERGE statement set to fail. -/
def wPendingStudentFail : World :=
  { wPendingStudent with failing := [UpsertTag.students] }

/-- A sample raw assignment payload. -/
def exAssignment : AssignmentPayload :=
  { assignment_id := "A1"
    canvas_assignment_id := some 55
    course_id := "C1"
    assignment_name := some "HW 1"
    assignment_type := none
    points_possible := some 100
    due_date := none
    unlock_date := none
    lock_date := none
    submission_types := none
    is_group_assignment := none
    weight := none }

/-- A world with one PENDING raw assignment row and no injected faults. -/
def wPendingAssignment : World :=
  { db := { emptyDb with raw_assignments :=
      [{ raw_id := "R2", payload := exAssignment, processing_status := ProcStatus.PENDING }] }
    now := 100000
    failing := []
    trace := [] }

/-- A curated student row for the aggregation examples. -/
def exDimStudent : DimStudent :=
  { student_key := 0
    student_id := "S1"
    canvas_user_id := some 7
    first_name := some "Ann"
    last_name := none
    email := some "a@x.edu"
    major := none
    classification := none
    enrollment_status := some "Active"
    enrollment_date := none
    expected_graduation := none
    gpa := none
    advisor_id := none
    updated_at := 0
    is_current := some true }

/-- A curated course row for the aggregation examples. -/
def exDimCourse : DimCourse :=
  { course_key := 0
    course_id := "C1"
    canvas_course_id := some 9
    course_code := some "CS101"
    course_name := some "Intro"
    department := some "CS"
    credit_hours := some 3
    course_level := none
    delivery_mode := none
    term := some "F25"
    academic_year := some "2025"
    instructor_id := none
    instructor_name := none
    start_date := none
    end_date := none
    max_enrollment := some 30
    updated_at := 0
    is_current := some true }

/-- A curated enrollment row linking the sample student and course. -/
def exFactEnrollment : FactEnrollment :=
  { enrollment_id := "E1"
    student_key := some 0
    course_key := some 0
    student_id := "S1"
    course_id := "C1"
    enrollment_state := some "active"
    enrollment_type := some "student"
    enrolled_at := none
    completed_at := none
    final_grade := some "A"
    final_score := some 90
    updated_at := 0 }

/-- A world whose curated store yields a non-empty aggregation result. -/
def wCurated : World :=
  { db := { emptyDb with
      dim_students := [exDimStudent]
      dim_courses := [exDimCourse]
      fact_enrollments := [exFactEnrollment] }
    now := 100000
    failing := []
    trace := [] }

/-- Each batch processor is an instance of the shared shape. -/
lemma processorOf_eq_generic (e : Entity) (w : World) :
    processorOf e w =
      processGeneric (procTagOf e) (rawTableOf e) (upsertTagOf e) (mergeStmtOf e)
        (mergeEffOf e) w := by
  cases e <;> rfl

/-- After the mark-processed UPDATE no row of the table is PENDING. -/
lemma pendingCountRows_markAll {α : Type} (rows : List (RawRow α)) :
    pendingCountRows (markAllProcessedRows rows) = 0 := by
  induction rows with
  | nil => rfl
  | cons r rs ih =>
    by_cases h : r.processing_status = ProcStatus.PENDING <;>
      simp [pendingCountRows, markAllProcessedRows, List.filter_cons, h] at ih ⊢ <;>
      simpa [pendingCountRows, markAllProcessedRows] using ih

/-- After mark-processed on a table, its pending count is 0. -/
lemma rawPendingCount_applyMark (db : Database) (t : RawTable) :
    rawPendingCount (applyMarkProcessed db t) t = 0 := by
  cases t <;> simp [rawPendingCount, applyMarkProcessed, pendingCountRows_markAll]

/-- Shared shape, zero-pending path: return 0 after only the count query. -/
lemma processGeneric_zero (tag : StepTag) (tbl : RawTable) (ut : UpsertTag)
    (stmt : Stmt) (eff : Nat → Database → Database) (w : World)
    (h : rawPendingCount w.db tbl = 0) :
    processGeneric tag tbl ut stmt eff w =
      (Except.ok 0,
       { w with
         now := w.now + 1
         trace := w.trace ++ [Ev.log tag, Ev.sql (Stmt.countPending tbl)] }) := by
  simp [processGeneric, get_pending_count, logStep, runSql, h]

/-- Shared shape, failing-upsert path: the error propagates, the warehouse is
untouched, mark-processed never runs. -/
lemma processGeneric_fail (tag : StepTag) (tbl : RawTable) (ut : UpsertTag)
    (stmt : Stmt) (eff : Nat → Database → Database) (w : World)
    (h1 : ut ∈ w.failing) (h2 : rawPendingCount w.db tbl ≠ 0) :
    processGeneric tag tbl ut stmt eff w =
      (Except.error (sqlFailMsg ut),
       { w with
         now := w.now + 2
         trace := w.trace ++
           [Ev.log tag, Ev.sql (Stmt.countPending tbl), Ev.sql stmt] }) := by
  simp [processGeneric, get_pending_count, logStep, runSql, h1, h2]

/-- Shared shape, success path: upsert effect, mark-processed, return the
initially measured pending count. -/
lemma processGeneric_ok (tag : StepTag) (tbl : RawTable) (ut : UpsertTag)
    (stmt : Stmt) (eff : Nat → Database → Database) (w : World)
    (h1 : ut ∉ w.failing) (h2 : rawPendingCount w.db tbl ≠ 0) :
    processGeneric tag tbl ut stmt eff w =
      (Except.ok (rawPendingCount w.db tbl),
       { w with
         db := applyMarkProcessed (eff (w.now + 1) w.db) tbl
         now := w.now + 3
         trace := w.trace ++
           [Ev.log tag, Ev.sql (Stmt.countPending tbl), Ev.sql stmt,
            Ev.sql (Stmt.markProcessed tbl)] }) := by
  simp [processGeneric, get_pending_count, mark_processed, logStep, runSql, h1, h2]

/-- Claim C1: for every entity batch processor (e.g. process_students), if
the upsert (MERGE/INSERT) statement raises, the batch aborts: the error
propagates to the caller and the warehouse — in particular the pending count,
since mark-processed never ran — is exactly as before the call (only the
clock and the ghost trace advance). -/
theorem claim_C1_upsert_failure_aborts_batch (e : Entity) (w : World)
    (h1 : upsertTagOf e ∈ w.failing)
    (h2 : 0 < rawPendingCount w.db (rawTableOf e)) :
    processorOf e w =
      (Except.error (sqlFailMsg (upsertTagOf e)),
       { w with
         now := w.now + 2
         trace := w.trace ++
           [Ev.log (procTagOf e), Ev.sql (Stmt.countPending (rawTableOf e)),
            Ev.sql (mergeStmtOf e)] }) := by
  rw [processorOf_eq_generic]
  exact processGeneric_fail _ _ _ _ _ w h1 (Nat.pos_iff_ne_zero.mp h2)

/-- Witness for claim C1: a concrete world with one pending student row and
a failing DIM_STUDENTS MERGE. -/
theorem claim_C1_witness :
    (processorOf Entity.students wPendingStudentFail).1 =
      Except.error (sqlFailMsg UpsertTag.students) ∧
    ((processorOf Entity.students wPendingStudentFail).2).db =
      wPendingStudentFail.db := by
  rw [claim_C1_upsert_failure_aborts_batch Entity.students wPendingStudentFail
    (by decide) (by decide)]
  exact ⟨rfl, rfl⟩

/-- Claim C2: after a successful batch-processor call (which marked every
PENDING row PROCESSED), an immediately repeated call — with no new pending
rows in between — returns 0 and changes nothing in the warehouse: only the
count query runs. -/
theorem claim_C2_second_call_returns_zero (e : Entity) (w : World) (n : Nat)
    (w1 : World) (h : processorOf e w = (Except.ok n, w1)) :
    processorOf e w1 =
      (Except.ok 0,
       { w1 with
         now := w1.now + 1
         trace := w1.trace ++
           [Ev.log (procTagOf e), Ev.sql (Stmt.countPending (rawTableOf e))] }) := by
  have hp : rawPendingCount w1.db (rawTableOf e) = 0 := by
    rw [processorOf_eq_generic] at h
    by_cases h0 : rawPendingCount w.db (rawTableOf e) = 0
    · rw [processGeneric_zero _ _ _ _ _ w h0] at h
      simp only [Prod.mk.injEq, Except.ok.injEq] at h
      rw [← h.2]
      simpa using h0
    · by_cases hf : upsertTagOf e ∈ w.failing
      · rw [processGeneric_fail _ _ _ _ _ w hf h0] at h
        simp at h
      · rw [processGeneric_ok _ _ _ _ _ w hf h0] at h
        simp only [Prod.mk.injEq, Except.ok.injEq] at h
        rw [← h.2]
        simpa using rawPendingCount_applyMark _ _
  rw [processorOf_eq_generic]
  exact processGeneric_zero _ _ _ _ _ w1 hp

/-- Witness for claim C2: process one pending student row, call again,
get 0. -/
theorem claim_C2_witness :
    (processorOf Entity.students (processorOf Entity.students wPendingStudent).2).1 =
      Except.ok 0 := by
  rw [claim_C2_second_call_returns_zero Entity.students wPendingStudent 1
    (processorOf Entity.students wPendingStudent).2 (by decide)]

/-- Claim C4: for every batch processor, when the pending count of its raw
table is 0 the call returns 0 after the count query alone — nothing in the
warehouse changes and no upsert or mark-processed statement appears in the
trace. -/
theorem claim_C4_zero_pending_noop (e : Entity) (w : World)
    (h : rawPendingCount w.db (rawTableOf e) = 0) :
    processorOf e w =
      (Except.ok 0,
       { w with
         now := w.now + 1
         trace := w.trace ++
           [Ev.log (procTagOf e), Ev.sql (Stmt.countPending (rawTableOf e))] }) := by
  rw [processorOf_eq_generic]
  exact processGeneric_zero _ _ _ _ _ w h

/-- Witness for claim C4: the empty warehouse. -/
theorem claim_C4_witness :
    processorOf Entity.students wEmpty =
      (Except.ok 0,
       { wEmpty with
         now := wEmpty.now + 1
         trace := wEmpty.trace ++
           [Ev.log (procTagOf Entity.students),
            Ev.sql (Stmt.countPending (rawTableOf Entity.students))] }) :=
  claim_C4_zero_pending_noop Entity.students wEmpty (by decide)

/-- Claim C7: whenever a batch processor returns normally, the returned
count is the pending-row count measured by the count query at the start of
the invocation, independent of what the upsert changed in the curated
store. -/
theorem claim_C7_returns_pending_count (e : Entity) (w : World) (n : Nat)
    (w' : World) (h : processorOf e w = (Except.ok n, w')) :
    n = rawPendingCount w.db (rawTableOf e) := by
  rw [processorOf_eq_generic] at h
  by_cases h0 : rawPendingCount w.db (rawTableOf e) = 0
  · rw [processGeneric_zero _ _ _ _ _ w h0] at h
    simp only [Prod.mk.injEq, Except.ok.injEq] at h
    rw [h0, ← h.1]
  · by_cases hf : upsertTagOf e ∈ w.failing
    · rw [processGeneric_fail _ _ _ _ _ w hf h0] at h
      simp at h
    · rw [processGeneric_ok _ _ _ _ _ w hf h0] at h
      simp only [Prod.mk.injEq, Except.ok.injEq] at h
      exact h.1.symm

/-- Witness for claim C7: one pending student row, count 1 returned. -/
theorem claim_C7_witness :
    (1 : Nat) = rawPendingCount wPendingStudent.db (rawTableOf Entity.students) :=
  claim_C7_returns_pending_count Entity.students wPendingStudent 1
    (processorOf Entity.students wPendingStudent).2 (by decide)

/-- Claim C10: transform_assignments returns 0 whenever it returns at all
(here: whenever its MERGE is not failing), even though it upserts the
pending RAW_ASSIGNMENTS rows and marks them PROCESSED — afterwards the
table's pending count is 0, yet the reported record count is 0. -/
theorem claim_C10_transform_assignments_returns_zero (w : World)
    (h : UpsertTag.assignments ∉ w.failing) :
    (transform_assignments w).1 = Except.ok 0 ∧
    rawPendingCount ((transform_assignments w).2).db RawTable.RAW_ASSIGNMENTS = 0 := by
  constructor
  · simp [transform_assignments, logStep, runSql, h]
  · simp [transform_assignments, logStep, runSql, h, rawPendingCount_applyMark]

/-- Witness for claim C10: one pending assignment row gets merged and
marked, and the call still returns 0. -/
theorem claim_C10_witness :
    (transform_assignments wPendingAssignment).1 = Except.ok 0 ∧
    rawPendingCount ((transform_assignments wPendingAssignment).2).db
      RawTable.RAW_ASSIGNMENTS = 0 :=
  claim_C10_transform_assignments_returns_zero wPendingAssignment (by decide)

/-- Claim C3: dispatching an unrecognized job-type token through
POST /run_etl leaves the job-state counters, the last-run timestamp and the
whole warehouse untouched, and the caller receives the per-row message
naming the token (the endpoint returns its result list normally — no HTTP
error). -/
theorem claim_C3_unknown_job_type (i : Nat) (jt : String) (rest : List String)
    (w : World) (js : JobState) (h : jt ∉ knownJobTypes) :
    run_etl_snowflake [{ row_index := i, args := jt :: rest }] w js =
      ([(i, "Unknown job type: " ++ jt)], w, js) := by
  simp only [knownJobTypes, List.mem_cons, List.not_mem_nil, or_false, not_or] at h
  obtain ⟨h1, h2, h3, h4, h5, h6, h7⟩ := h
  simp [run_etl_snowflake, run_etl_rows, run_etl_row, dispatchJob,
    h1, h2, h3, h4, h5, h6, h7]

/-- Witness for claim C3: the token "BOGUS". -/
theorem claim_C3_witness :
    run_etl_snowflake [{ row_index := 0, args := ["BOGUS"] }] wEmpty
        initial_job_state =
      ([(0, "Unknown job type: " ++ "BOGUS")], wEmpty, initial_job_state) :=
  claim_C3_unknown_job_type 0 "BOGUS" [] wEmpty initial_job_state (by decide)

/-- A batch processor without an injected fault returns normally and its
trace contribution carries exactly its own step marker. -/
lemma processorOf_spec (e : Entity) (w : World)
    (h : upsertTagOf e ∉ w.failing) :
    ∃ n w', processorOf e w = (Except.ok n, w') ∧
      (∃ evs, w'.trace = w.trace ++ evs ∧ evs.filterMap evMarker = [procTagOf e]) ∧
      w'.failing = w.failing := by
  rw [processorOf_eq_generic]
  by_cases h0 : rawPendingCount w.db (rawTableOf e) = 0
  · rw [processGeneric_zero _ _ _ _ _ w h0]
    exact ⟨0, _, rfl, ⟨_, rfl, rfl⟩, rfl⟩
  · rw [processGeneric_ok _ _ _ _ _ w h h0]
    exact ⟨_, _, rfl, ⟨_, rfl, rfl⟩, rfl⟩

/-- transform_students always returns normally; its trace contribution
carries exactly its own step marker. -/
lemma transform_students_spec (w : World) :
    ∃ n w', transform_students w = (Except.ok n, w') ∧
      (∃ evs, w'.trace = w.trace ++ evs ∧
        evs.filterMap evMarker = [StepTag.tStudents]) ∧
      w'.failing = w.failing := by
  refine ⟨_, _, rfl, ⟨[Ev.log StepTag.tStudents, Ev.sql Stmt.updateDimStudents],
    ?_, rfl⟩, rfl⟩
  simp [transform_students, logStep, runSql]

/-- transform_courses always returns normally. -/
lemma transform_courses_spec (w : World) :
    ∃ n w', transform_courses w = (Except.ok n, w') ∧
      (∃ evs, w'.trace = w.trace ++ evs ∧
        evs.filterMap evMarker = [StepTag.tCourses]) ∧
      w'.failing = w.failing := by
  refine ⟨_, _, rfl, ⟨[Ev.log StepTag.tCourses, Ev.sql Stmt.updateDimCourses],
    ?_, rfl⟩, rfl⟩
  simp [transform_courses, logStep, runSql]

/-- transform_assignments without an injected fault returns normally. -/
lemma transform_assignments_spec (w : World)
    (h : UpsertTag.assignments ∉ w.failing) :
    ∃ n w', transform_assignments w = (Except.ok n, w') ∧
      (∃ evs, w'.trace = w.trace ++ evs ∧
        evs.filterMap evMarker = [StepTag.tAssignments]) ∧
      w'.failing = w.failing := by
  refine ⟨0, (transform_assignments w).2,
    Prod.ext_iff.mpr ⟨?_, rfl⟩,
    ⟨[Ev.log StepTag.tAssignments, Ev.sql Stmt.mergeAssignments,
      Ev.sql (Stmt.markProcessed RawTable.RAW_ASSIGNMENTS)], ?_, rfl⟩, ?_⟩
  · simp [transform_assignments, logStep, runSql, h]
  · simp [transform_assignments, logStep, runSql, h]
  · simp [transform_assignments, logStep, runSql, h]

/-- transform_enrollments always returns 0 after only its log line. -/
lemma transform_enrollments_spec (w : World) :
    ∃ n w', transform_enrollments w = (Except.ok n, w') ∧
      (∃ evs, w'.trace = w.trace ++ evs ∧
        evs.filterMap evMarker = [StepTag.tEnrollments]) ∧
      w'.failing = w.failing :=
  ⟨0, _, rfl, ⟨[Ev.log StepTag.tEnrollments], rfl, rfl⟩, rfl⟩

/-- transform_submissions always returns 0 after only its log line. -/
lemma transform_submissions_spec (w : World) :
    ∃ n w', transform_submissions w = (Except.ok n, w') ∧
      (∃ evs, w'.trace = w.trace ++ evs ∧
        evs.filterMap evMarker = [StepTag.tSubmissions]) ∧
      w'.failing = w.failing :=
  ⟨0, _, rfl, ⟨[Ev.log StepTag.tSubmissions], rfl, rfl⟩, rfl⟩

/-- transform_activity_logs always returns 0 after only its log line. -/
lemma transform_activity_logs_spec (w : World) :
    ∃ n w', transform_activity_logs w = (Except.ok n, w') ∧
      (∃ evs, w'.trace = w.trace ++ evs ∧
        evs.filterMap evMarker = [StepTag.tActivity]) ∧
      w'.failing = w.failing :=
  ⟨0, _, rfl, ⟨[Ev.log StepTag.tActivity], rfl, rfl⟩, rfl⟩

/-- aggregate_student_performance always returns normally. -/
lemma aggregate_student_performance_spec (w : World) :
    ∃ n w', aggregate_student_performance w = (Except.ok n, w') ∧
      (∃ evs, w'.trace = w.trace ++ evs ∧
        evs.filterMap evMarker = [StepTag.aggStudentPerf]) ∧
      w'.failing = w.failing := by
  refine ⟨_, _, rfl, ⟨[Ev.log StepTag.aggStudentPerf, Ev.sql Stmt.truncateAggStudentPerf,
    Ev.sql Stmt.insertAggStudentPerf, Ev.sql Stmt.countAggStudentPerf], ?_, rfl⟩, rfl⟩
  simp [aggregate_student_performance, logStep, runSql]

/-- aggregate_course_analytics always returns normally. -/
lemma aggregate_course_analytics_spec (w : World) :
    ∃ n w', aggregate_course_analytics w = (Except.ok n, w') ∧
      (∃ evs, w'.trace = w.trace ++ evs ∧
        evs.filterMap evMarker = [StepTag.aggCourseAnalytics]) ∧
      w'.failing = w.failing := by
  refine ⟨_, _, rfl, ⟨[Ev.log StepTag.aggCourseAnalytics,
    Ev.sql Stmt.truncateAggCourseAnalytics, Ev.sql Stmt.insertAggCourseAnalytics,
    Ev.sql Stmt.countAggCourseAnalytics], ?_, rfl⟩, rfl⟩
  simp [aggregate_course_analytics, logStep, runSql]

/-- calculate_student_risk_scores always returns normally. -/
lemma calculate_student_risk_scores_spec (w : World) :
    ∃ n w', calculate_student_risk_scores w = (Except.ok n, w') ∧
      (∃ evs, w'.trace = w.trace ++ evs ∧
        evs.filterMap evMarker = [StepTag.riskScores]) ∧
      w'.failing = w.failing := by
  refine ⟨_, _, rfl, ⟨[Ev.log StepTag.riskScores, Ev.sql Stmt.selectRiskStudents],
    ?_, rfl⟩, rfl⟩
  simp [calculate_student_risk_scores, logStep, runSql]

/-- With no injected faults, process_all_raw_data runs the five batch
processors in the source order and its trace markers are exactly their five
step tags in that order. -/
lemma process_all_raw_data_spec (w : World) (h : w.failing = []) :
    ∃ n w', process_all_raw_data w = (Except.ok n, w') ∧
      (∃ evs, w'.trace = w.trace ++ evs ∧
        evs.filterMap evMarker =
          [StepTag.pStudents, StepTag.pCourses, StepTag.pEnrollments,
           StepTag.pSubmissions, StepTag.pActivity]) ∧
      w'.failing = w.failing := by
  obtain ⟨n1, w1, hw1, ⟨e1, ht1, hm1⟩, hf1⟩ :=
    processorOf_spec Entity.students w (by rw [h]; exact List.not_mem_nil _)
  obtain ⟨n2, w2, hw2, ⟨e2, ht2, hm2⟩, hf2⟩ :=
    processorOf_spec Entity.courses w1 (by rw [hf1, h]; exact List.not_mem_nil _)
  obtain ⟨n3, w3, hw3, ⟨e3, ht3, hm3⟩, hf3⟩ :=
    processorOf_spec Entity.enrollments w2
      (by rw [hf2, hf1, h]; exact List.not_mem_nil _)
  obtain ⟨n4, w4, hw4, ⟨e4, ht4, hm4⟩, hf4⟩ :=
    processorOf_spec Entity.submissions w3
      (by rw [hf3, hf2, hf1, h]; exact List.not_mem_nil _)
  obtain ⟨n5, w5, hw5, ⟨e5, ht5, hm5⟩, hf5⟩ :=
    processorOf_spec Entity.activity w4
      (by rw [hf4, hf3, hf2, hf1, h]; exact List.not_mem_nil _)
  have hw1' : process_students w = (Except.ok n1, w1) := hw1
  have hw2' : process_courses w1 = (Except.ok n2, w2) := hw2
  have hw3' : process_enrollments w2 = (Except.ok n3, w3) := hw3
  have hw4' : process_submissions w3 = (Except.ok n4, w4) := hw4
  have hw5' : process_activity_logs w4 = (Except.ok n5, w5) := hw5
  refine ⟨n1 + n2 + n3 + n4 + n5, w5, ?_, ⟨e1 ++ e2 ++ e3 ++ e4 ++ e5, ?_, ?_⟩, ?_⟩
  · simp only [process_all_raw_data, hw1', hw2', hw3', hw4', hw5']
  · rw [ht5, ht4, ht3, ht2, ht1]
    simp [List.append_assoc]
  · simp [List.filterMap_append, hm1, hm2, hm3, hm4, hm5, procTagOf]
  · rw [hf5, hf4, hf3, hf2, hf1]

/-- With no injected faults, run_all_transformations runs the six
transformation/aggregation steps in the source order. -/
lemma run_all_transformations_spec (w : World) (h : w.failing = []) :
    ∃ n w', run_all_transformations w = (Except.ok n, w') ∧
      (∃ evs, w'.trace = w.trace ++ evs ∧
        evs.filterMap evMarker =
          [StepTag.tStudents, StepTag.tCourses, StepTag.tAssignments,
           StepTag.aggStudentPerf, StepTag.aggCourseAnalytics,
           StepTag.riskScores]) ∧
      w'.failing = w.failing := by
  obtain ⟨n1, w1, hw1, ⟨e1, ht1, hm1⟩, hf1⟩ := transform_students_spec w
  obtain ⟨n2, w2, hw2, ⟨e2, ht2, hm2⟩, hf2⟩ := transform_courses_spec w1
  obtain ⟨n3, w3, hw3, ⟨e3, ht3, hm3⟩, hf3⟩ :=
    transform_assignments_spec w2 (by rw [hf2, hf1, h]; exact List.not_mem_nil _)
  obtain ⟨n4, w4, hw4, ⟨e4, ht4, hm4⟩, hf4⟩ := aggregate_student_performance_spec w3
  obtain ⟨n5, w5, hw5, ⟨e5, ht5, hm5⟩, hf5⟩ := aggregate_course_analytics_spec w4
  obtain ⟨n6, w6, hw6, ⟨e6, ht6, hm6⟩, hf6⟩ := calculate_student_risk_scores_spec w5
  refine ⟨n1 + n2 + n3 + n4 + n5 + n6, w6, ?_,
    ⟨e1 ++ e2 ++ e3 ++ e4 ++ e5 ++ e6, ?_, ?_⟩, ?_⟩
  · simp only [run_all_transformations, hw1, hw2, hw3, hw4, hw5, hw6]
  · rw [ht6, ht5, ht4, ht3, ht2, ht1]
    simp [List.append_assoc]
  · simp [List.filterMap_append, hm1, hm2, hm3, hm4, hm5, hm6]
  · rw [hf6, hf5, hf4, hf3, hf2, hf1]

/-- Claim C5: dispatching job type STUDENTS invokes exactly the student
batch processor and the student transform step — the step markers of the
dispatched run are exactly [pStudents, tStudents], so no other entity's
processor or transform step runs. -/
theorem claim_C5_students_dispatch (w : World)
    (h : UpsertTag.students ∉ w.failing) :
    ∃ n w' evs, dispatchJob "STUDENTS" w = some (Except.ok n, w') ∧
      w'.trace = w.trace ++ evs ∧
      evs.filterMap evMarker = [StepTag.pStudents, StepTag.tStudents] := by
  obtain ⟨n1, w1, hw1, ⟨e1, ht1, hm1⟩, hf1⟩ := processorOf_spec Entity.students w h
  obtain ⟨n2, w2, hw2, ⟨e2, ht2, hm2⟩, hf2⟩ := transform_students_spec w1
  have hw1' : process_students w = (Except.ok n1, w1) := hw1
  refine ⟨n1 + n2, w2, e1 ++ e2, ?_, ?_, ?_⟩
  · have hd : dispatchJob "STUDENTS" w =
        some (seqSteps process_students transform_students w) := rfl
    rw [hd]
    simp only [seqSteps, hw1', hw2]
  · rw [ht2, ht1, List.append_assoc]
  · simp [List.filterMap_append, hm1, hm2, procTagOf]

/-- Witness for claim C5: the empty warehouse, no faults. -/
theorem claim_C5_witness :
    ∃ n w' evs, dispatchJob "STUDENTS" wEmpty = some (Except.ok n, w') ∧
      w'.trace = wEmpty.trace ++ evs ∧
      evs.filterMap evMarker = [StepTag.pStudents, StepTag.tStudents] :=
  claim_C5_students_dispatch wEmpty (by decide)

/-- Claim C6: a FULL_REFRESH job runs all five batch processors in the
fixed order students, courses, enrollments, submissions, activity logs, and
only afterwards the transformation/aggregation steps, in their fixed order —
the dispatched run's step markers are exactly that sequence, none skipped or
reordered. -/
theorem claim_C6_full_refresh_order (w : World) (h : w.failing = []) :
    ∃ n w' evs, dispatchJob "FULL_REFRESH" w = some (Except.ok n, w') ∧
      w'.trace = w.trace ++ evs ∧
      evs.filterMap evMarker =
        [StepTag.pStudents, StepTag.pCourses, StepTag.pEnrollments,
         StepTag.pSubmissions, StepTag.pActivity, StepTag.tStudents,
         StepTag.tCourses, StepTag.tAssignments, StepTag.aggStudentPerf,
         StepTag.aggCourseAnalytics, StepTag.riskScores] := by
  obtain ⟨n1, w1, hw1, ⟨e1, ht1, hm1⟩, hf1⟩ := process_all_raw_data_spec w h
  obtain ⟨n2, w2, hw2, ⟨e2, ht2, hm2⟩, hf2⟩ :=
    run_all_transformations_spec w1 (hf1.trans h)
  refine ⟨n1 + n2, w2, e1 ++ e2, ?_, ?_, ?_⟩
  · have hd : dispatchJob "FULL_REFRESH" w =
        some (seqSteps process_all_raw_data run_all_transformations w) := rfl
    rw [hd]
    simp only [seqSteps, hw1, hw2]
  · rw [ht2, ht1, List.append_assoc]
  · simp [List.filterMap_append, hm1, hm2]

/-- Witness for claim C6: the empty warehouse, no faults. -/
theorem claim_C6_witness :
    ∃ n w' evs, dispatchJob "FULL_REFRESH" wEmpty = some (Except.ok n, w') ∧
      w'.trace = wEmpty.trace ++ evs ∧
      evs.filterMap evMarker =
        [StepTag.pStudents, StepTag.pCourses, StepTag.pEnrollments,
         StepTag.pSubmissions, StepTag.pActivity, StepTag.tStudents,
         StepTag.tCourses, StepTag.tAssignments, StepTag.aggStudentPerf,
         StepTag.aggCourseAnalytics, StepTag.riskScores] :=
  claim_C6_full_refresh_order wEmpty rfl

/-- Normalizing calculated_at in the student-performance SELECT rows is the
same as computing them at timestamp 0: only calculated_at depends on the
clock. -/
lemma strip_agg_student_select (db : Database) (t : Nat) :
    (agg_student_perf_select db t).map stripCalcStudent =
      agg_student_perf_select db 0 := by
  simp only [agg_student_perf_select, List.map_map]
  rfl

/-- Normalizing calculated_at in the course-analytics SELECT rows is the
same as computing them at timestamp 0. -/
lemma strip_agg_course_select (db : Database) (t : Nat) :
    (agg_course_analytics_select db t).map stripCalcCourse =
      agg_course_analytics_select db 0 := by
  simp only [agg_course_analytics_select, List.map_map]
  rfl

/-- The student-performance SELECT never reads the snapshot table it
repopulates. -/
lemma agg_student_select_congr (db : Database) (rows : List AggStudentPerfRow)
    (t : Nat) :
    agg_student_perf_select { db with agg_student_course_performance := rows } t =
      agg_student_perf_select db t := rfl

/-- The course-analytics SELECT never reads the snapshot table it
repopulates. -/
lemma agg_course_select_congr (db : Database) (rows : List AggCourseAnalyticsRow)
    (t : Nat) :
    agg_course_analytics_select { db with agg_course_analytics := rows } t =
      agg_course_analytics_select db t := rfl

/-- One aggregate_student_performance run in closed form. -/
lemma aggregate_student_performance_run (w : World) :
    aggregate_student_performance w =
      (Except.ok (agg_student_perf_select w.db (w.now + 1)).length,
       { w with
         db := { w.db with
           agg_student_course_performance := agg_student_perf_select w.db (w.now + 1) }
         now := w.now + 3
         trace := w.trace ++
           [Ev.log StepTag.aggStudentPerf, Ev.sql Stmt.truncateAggStudentPerf,
            Ev.sql Stmt.insertAggStudentPerf, Ev.sql Stmt.countAggStudentPerf] }) := by
  simp [aggregate_student_performance, logStep, runSql, agg_student_select_congr]

/-- One aggregate_course_analytics run in closed form. -/
lemma aggregate_course_analytics_run (w : World) :
    aggregate_course_analytics w =
      (Except.ok (agg_course_analytics_select w.db (w.now + 1)).length,
       { w with
         db := { w.db with
           agg_course_analytics := agg_course_analytics_select w.db (w.now + 1) }
         now := w.now + 3
         trace := w.trace ++
           [Ev.log StepTag.aggCourseAnalytics, Ev.sql Stmt.truncateAggCourseAnalytics,
            Ev.sql Stmt.insertAggCourseAnalytics, Ev.sql Stmt.countAggCourseAnalytics] }) := by
  simp [aggregate_course_analytics, logStep, runSql, agg_course_select_congr]

/-- Claim C8 (amended): with a fixed curated store and no intervening
writes, running an Aggregation Runner twice in a row produces the same
snapshot rows up to the calculated_at column — every other column is
byte-identical; calculated_at alone carries each run's own
CURRENT_TIMESTAMP(). -/
theorem claim_C8_amended_same_up_to_timestamp (w : World) :
    (((aggregate_student_performance
          (aggregate_student_performance w).2).2).db.agg_student_course_performance).map
        stripCalcStudent =
      (((aggregate_student_performance w).2).db.agg_student_course_performance).map
        stripCalcStudent ∧
    (((aggregate_course_analytics
          (aggregate_course_analytics w).2).2).db.agg_course_analytics).map
        stripCalcCourse =
      (((aggregate_course_analytics w).2).db.agg_course_analytics).map
        stripCalcCourse := by
  constructor
  · rw [aggregate_student_performance_run w, aggregate_student_performance_run]
    simp [strip_agg_student_select, agg_student_select_congr]
  · rw [aggregate_course_analytics_run w, aggregate_course_analytics_run]
    simp [strip_agg_course_select, agg_course_select_congr]

/-- Counterexample for claim C8 as stated: on a concrete curated store with
one student, course and enrollment, two consecutive aggregate_student_performance
runs with no intervening writes produce snapshot rows that are not
byte-identical (their calculated_at timestamps differ). -/
theorem claim_C8_counterexample :
    (((aggregate_student_performance
          (aggregate_student_performance wCurated).2).2).db.agg_student_course_performance) ≠
      (((aggregate_student_performance wCurated).2).db.agg_student_course_performance) := by
  decide

/-- One /run_etl row never touches running_jobs. -/
lemma run_etl_row_running (row : SfRow) (w : World) (js : JobState) :
    ((run_etl_row row w js).2.2).running_jobs = js.running_jobs := by
  simp only [run_etl_row]
  split <;> rfl

/-- The /run_etl row loop never touches running_jobs. -/
lemma run_etl_rows_running (rows : List SfRow) :
    ∀ w js, ((run_etl_rows rows w js).2.2).running_jobs = js.running_jobs := by
  induction rows with
  | nil => intro w js; rfl
  | cons row rest ih =>
    intro w js
    rcases hrow : run_etl_row row w js with ⟨res, w1, js1⟩
    have h1 : js1.running_jobs = js.running_jobs := by
      have := run_etl_row_running row w js
      rw [hrow] at this
      exact this
    simp only [run_etl_rows, hrow]
    rw [ih w1 js1, h1]

/-- One /transform row never touches running_jobs. -/
lemma transform_row_running (row : SfRow) (w : World) (js : JobState) :
    ((transform_row row w js).2.2).running_jobs = js.running_jobs := by
  simp only [transform_row]
  split
  · rfl
  · split <;> rfl

/-- The /transform row loop never touches running_jobs. -/
lemma transform_rows_running (rows : List SfRow) :
    ∀ w js, ((transform_rows rows w js).2.2).running_jobs = js.running_jobs := by
  induction rows with
  | nil => intro w js; rfl
  | cons row rest ih =>
    intro w js
    rcases hrow : transform_row row w js with ⟨res, w1, js1⟩
    have h1 : js1.running_jobs = js.running_jobs := by
      have := transform_row_running row w js
      rw [hrow] at this
      exact this
    simp only [transform_rows, hrow]
    rw [ih w1 js1, h1]

/-- execute_etl_job only filters running_jobs (its single write site). -/
lemma execute_etl_job_running (jid jt : String) (w : World) (js : JobState) :
    ((execute_etl_job jid jt w js).2).running_jobs =
      js.running_jobs.filter fun j => j.job_id ≠ jid := by
  simp only [execute_etl_job]
  split <;> rfl

/-- In every reachable state running_jobs is the empty list: it starts
empty, and no code path appends to it. -/
lemma reachable_running_jobs_nil {s : World × JobState} (h : Reachable s) :
    s.2.running_jobs = [] := by
  induction h with
  | init w => rfl
  | etl rows h ih =>
    simp only [run_etl_snowflake]
    rw [run_etl_rows_running, ih]
  | transformCall rows h ih =>
    simp only [transform_snowflake]
    rw [transform_rows_running, ih]
  | execJob jid jt h ih =>
    rw [execute_etl_job_running, ih]
    rfl

/-- Claim C9: no code path ever adds an entry to job_state["running_jobs"]
(the only writes are its empty initialization and the filtering removal in
execute_etl_job), so in every reachable state GET /status_get reports
status "idle" and GET /metrics reports active_jobs = 0. -/
theorem claim_C9_running_jobs_always_empty {s : World × JobState}
    (h : Reachable s) :
    s.2.running_jobs = [] ∧
    (get_status_http s.2).status = "idle" ∧
    (get_metrics s.2).active_jobs = 0 := by
  have hr := reachable_running_jobs_nil h
  refine ⟨hr, ?_, ?_⟩ <;> simp [get_status_http, get_metrics, hr]

/-- Witness for claim C9: the initial state itself. -/
theorem claim_C9_witness :
    initial_job_state.running_jobs = [] ∧
    (get_status_http initial_job_state).status = "idle" ∧
    (get_metrics initial_job_state).active_jobs = 0 :=
  claim_C9_running_jobs_always_empty (Reachable.init wEmpty)

end DeContainers
